import Mathlib

/-!
Verification development for the TileDB virtual-filesystem layer
(`tiledb/sm/filesystem/vfs.cc`).  The embedding covers URI scheme
classification, build-time backend availability, the status values and
messages the dispatch code produces, the parallel-read chunking arithmetic
of `VFS::read`, and the stateful operations `create_dir`, `is_file`,
`is_dir`, `remove_file`, `move_file`, `move_dir`, `ls`, `open_file`,
`read_impl`, `filelock_lock` and `filelock_unlock`.  The non-Windows
(`posix`) branch of each `#ifdef _WIN32` is the one embedded.
-/

/-- The URI scheme tags the dispatch code distinguishes, via
`URI::is_file`, `URI::is_hdfs`, `URI::is_s3`; everything else falls to the
"Unsupported URI scheme" branches. -/
inductive Scheme where
  | localFs
  | hdfs
  | s3
  | other
  deriving DecidableEq

/-- A resource identifier: its scheme classification plus the identifier
string (`URI::to_string`). -/
structure URI where
  scheme : Scheme
  id : String
  deriving DecidableEq

def URI.to_string (u : URI) : String := u.id

/-- `URI::is_file` (local-filesystem URI). -/
def URI.is_file (u : URI) : Bool :=
  match u.scheme with
  | .localFs => true
  | _ => false

/-- `URI::is_hdfs`. -/
def URI.is_hdfs (u : URI) : Bool :=
  match u.scheme with
  | .hdfs => true
  | _ => false

/-- `URI::is_s3`. -/
def URI.is_s3 (u : URI) : Bool :=
  match u.scheme with
  | .s3 => true
  | _ => false

/-- The build-time backend flags `HAVE_HDFS` and `HAVE_S3` of vfs.cc. -/
structure Build where
  haveHdfs : Bool
  haveS3 : Bool
  deriving DecidableEq

/-- The error messages vfs.cc produces, kept structured so that theorems
can distinguish them; `Msg.render` gives the exact source strings. -/
inductive Msg where
  | builtWithoutHdfs
  | builtWithoutS3
  | cannotOpenBuiltWithoutS3
  | unsupportedSchemeMsg (uri : String)
  | unsupportedSchemesMsg (uri1 uri2 : String)
  | movingAcrossFs
  | cannotOpenNoFile (uri : String)
  | cannotOpenS3Append (uri : String)
  | parallelReadError
  deriving DecidableEq

/-- The exact message strings of vfs.cc. -/
def Msg.render : Msg → String
  | .builtWithoutHdfs => "TileDB was built without HDFS support"
  | .builtWithoutS3 => "TileDB was built without S3 support"
  | .cannotOpenBuiltWithoutS3 =>
      "Cannot open file; TileDB was built without S3 support"
  | .unsupportedSchemeMsg u => "Unsupported URI scheme: " ++ u
  | .unsupportedSchemesMsg u1 u2 =>
      "Unsupported URI schemes: " ++ u1 ++ ", " ++ u2
  | .movingAcrossFs => "Moving files across filesystems is not supported yet"
  | .cannotOpenNoFile u =>
      "Cannot open file '" ++ u ++ "'; File does not exist"
  | .cannotOpenS3Append u =>
      "Cannot open file '" ++ u ++ "'; S3 does not support append mode"
  | .parallelReadError => "VFS parallel read error"

/-- `tiledb::sm::Status`: `Ok`, `Status::VFSError(msg)` and the one
`Status::Error(msg)` used by `create_dir`'s fall-through branch. -/
inductive Status where
  | ok
  | vfsError (msg : Msg)
  | error (msg : Msg)
  deriving DecidableEq

/-- Modelled from the spec: the error taxonomy of §7 (`UnsupportedScheme`,
`BackendNotCompiled`, `NotFound`, `UnsupportedOperation`,
`ParallelReadAggregateFailure`, `BackendError`). -/
inductive ErrKind where
  | unsupportedScheme
  | backendNotCompiled
  | notFound
  | unsupportedOperation
  | parallelReadAggregate
  | backendError
  deriving DecidableEq

/-- Modelled from the spec: how §7's taxonomy classifies each concrete
message of vfs.cc. -/
def Msg.kind : Msg → ErrKind
  | .builtWithoutHdfs => .backendNotCompiled
  | .builtWithoutS3 => .backendNotCompiled
  | .cannotOpenBuiltWithoutS3 => .backendNotCompiled
  | .unsupportedSchemeMsg _ => .unsupportedScheme
  | .unsupportedSchemesMsg _ _ => .unsupportedScheme
  | .movingAcrossFs => .unsupportedOperation
  | .cannotOpenNoFile _ => .notFound
  | .cannotOpenS3Append _ => .unsupportedOperation
  | .parallelReadError => .parallelReadAggregate

/-- Classification of a status under §7's taxonomy. -/
def classifyStatus : Status → Option ErrKind
  | .ok => none
  | .vfsError m => some m.kind
  | .error m => some m.kind

/-- The storage state visible through the backend drivers: which URIs
denote existing files and directories, which local advisory locks are
held, and what listing each backend driver would produce for a parent
URI. -/
structure FSState where
  files : URI → Bool
  dirs : URI → Bool
  locks : URI → Bool
  listing : URI → List String

/-- Modelled from the spec: a backend driver's `create_dir`
(`posix_.create_dir` / `hdfs::create_dir` are outside vfs.cc) marks the
directory as existing. -/
def driverCreateDir (st : FSState) (u : URI) : FSState :=
  { st with dirs := fun v => if v = u then true else st.dirs v }

/-- Modelled from the spec: a backend driver's `remove_file` removes the
file (overwrite-by-replace semantics of §4.3 rely on this). -/
def driverRemoveFile (st : FSState) (u : URI) : FSState :=
  { st with files := fun v => if v = u then false else st.files v }

/-- Modelled from the spec: a backend driver's same-scheme
`move_path`/`move_object` renames the source file onto the
destination. -/
def driverMoveFile (st : FSState) (oldU newU : URI) : FSState :=
  { st with
    files := fun v =>
      if v = newU then st.files oldU
      else if v = oldU then false
      else st.files v }

/-- Modelled from the spec: `posix_.filelock_lock` performs a real
advisory lock on the local file (§4.3: only the local backend locks). -/
def driverLock (st : FSState) (u : URI) : FSState :=
  { st with locks := fun v => if v = u then true else st.locks v }

/-- Modelled from the spec: `posix_.filelock_unlock` releases the local
advisory lock. -/
def driverUnlock (st : FSState) (u : URI) : FSState :=
  { st with locks := fun v => if v = u then false else st.locks v }

/-- `VFS::is_file` (vfs.cc lines 440-474): dispatch on the scheme; a
not-compiled backend sets the out-parameter to `false` and returns the
"built without" error; an unrecognized scheme returns the
"Unsupported URI scheme" error.  The driver-level existence test
(`posix_.is_file`, `hdfs::is_file`, `s3_.is_object`) is modelled from the
spec as a lookup in the state. -/
def VFS.is_file (bu : Build) (st : FSState) (u : URI) : Status × Bool :=
  match u.scheme with
  | .localFs => (.ok, st.files u)
  | .hdfs =>
      if bu.haveHdfs then (.ok, st.files u)
      else (.vfsError .builtWithoutHdfs, false)
  | .s3 =>
      if bu.haveS3 then (.ok, st.files u)
      else (.vfsError .builtWithoutS3, false)
  | .other => (.vfsError (.unsupportedSchemeMsg u.to_string), false)

/-- `VFS::is_dir` (vfs.cc lines 405-438), same shape as `is_file`. -/
def VFS.is_dir (bu : Build) (st : FSState) (u : URI) : Status × Bool :=
  match u.scheme with
  | .localFs => (.ok, st.dirs u)
  | .hdfs =>
      if bu.haveHdfs then (.ok, st.dirs u)
      else (.vfsError .builtWithoutHdfs, false)
  | .s3 =>
      if bu.haveS3 then (.ok, st.dirs u)
      else (.vfsError .builtWithoutS3, false)
  | .other => (.vfsError (.unsupportedSchemeMsg u.to_string), false)

/-- `VFS::remove_file` (vfs.cc lines 281-310). -/
def VFS.remove_file (bu : Build) (st : FSState) (u : URI) :
    Status × FSState :=
  match u.scheme with
  | .localFs => (.ok, driverRemoveFile st u)
  | .hdfs =>
      if bu.haveHdfs then (.ok, driverRemoveFile st u)
      else (.vfsError .builtWithoutHdfs, st)
  | .s3 =>
      if bu.haveS3 then (.ok, driverRemoveFile st u)
      else (.vfsError .builtWithoutS3, st)
  | .other => (.vfsError (.unsupportedSchemeMsg u.to_string), st)

/-- `VFS::create_dir` (vfs.cc lines 108-145): for non-S3 URIs first check
`is_dir` and return `Ok` if the directory already exists (propagating an
`is_dir` failure); then dispatch.  The S3 branch is a no-op returning
`Ok`; the fall-through uses `Status::Error`, not `Status::VFSError`. -/
def VFS.create_dir (bu : Build) (st : FSState) (u : URI) :
    Status × FSState :=
  let pre : Status × Bool :=
    if u.is_s3 then (.ok, false) else VFS.is_dir bu st u
  match pre with
  | (.ok, true) => (.ok, st)
  | (.ok, false) =>
      match u.scheme with
      | .localFs => (.ok, driverCreateDir st u)
      | .hdfs =>
          if bu.haveHdfs then (.ok, driverCreateDir st u)
          else (.vfsError .builtWithoutHdfs, st)
      | .s3 =>
          if bu.haveS3 then (.ok, st)
          else (.vfsError .builtWithoutS3, st)
      | .other => (.error (.unsupportedSchemeMsg u.to_string), st)
  | (e, _) => (e, st)

/-- The scheme-dispatch block that `VFS::move_file` (vfs.cc lines
576-617) and `VFS::move_dir` (lines 626-667) share verbatim: a same-scheme
pair goes to the driver, a cross-scheme pair returns the
"Moving files across filesystems" error, a source of unrecognized scheme
returns the "Unsupported URI schemes" error.  (The two code blocks differ
only in which driver entry point they call — `move_path`/`move_object`
vs. `move_dir` — which is below the modelled driver level.) -/
def moveDispatch (bu : Build) (st : FSState) (oldU newU : URI) :
    Status × FSState :=
  match oldU.scheme with
  | .localFs =>
      if newU.is_file then (.ok, driverMoveFile st oldU newU)
      else (.vfsError .movingAcrossFs, st)
  | .hdfs =>
      if newU.is_hdfs then
        if bu.haveHdfs then (.ok, driverMoveFile st oldU newU)
        else (.vfsError .builtWithoutHdfs, st)
      else (.vfsError .movingAcrossFs, st)
  | .s3 =>
      if newU.is_s3 then
        if bu.haveS3 then (.ok, driverMoveFile st oldU newU)
        else (.vfsError .builtWithoutS3, st)
      else (.vfsError .movingAcrossFs, st)
  | .other =>
      (.vfsError
        (.unsupportedSchemesMsg oldU.to_string newU.to_string), st)

/-- `VFS::move_file` (vfs.cc lines 566-620): first test whether the
destination exists (propagating a failure of that test), remove it if so
(propagating a failure of the removal), and only then dispatch on the
schemes. -/
def VFS.move_file (bu : Build) (st : FSState) (oldU newU : URI) :
    Status × FSState :=
  match VFS.is_file bu st newU with
  | (.ok, isFile) =>
    let afterRemove : Status × FSState :=
      if isFile then VFS.remove_file bu st newU else (.ok, st)
    match afterRemove with
    | (.ok, st1) => moveDispatch bu st1 oldU newU
    | (e, st1) => (e, st1)
  | (e, _) => (e, st)

/-- `VFS::move_dir` (vfs.cc lines 622-670): like `move_file` but with no
destination pre-check at all. -/
def VFS.move_dir (bu : Build) (st : FSState) (oldU newU : URI) :
    Status × FSState :=
  moveDispatch bu st oldU newU

/-- `VFS::ls` (vfs.cc lines 530-564): dispatch to the driver listing
(modelled from the spec as `st.listing parent`), propagate its failure,
then `std::sort` the paths (lexicographic on the path string) and return
them. -/
def VFS.ls (bu : Build) (st : FSState) (parent : URI) :
    Status × List String :=
  let driver : Status × List String :=
    match parent.scheme with
    | .localFs => (.ok, st.listing parent)
    | .hdfs =>
        if bu.haveHdfs then (.ok, st.listing parent)
        else (.vfsError .builtWithoutHdfs, [])
    | .s3 =>
        if bu.haveS3 then (.ok, st.listing parent)
        else (.vfsError .builtWithoutS3, [])
    | .other => (.vfsError (.unsupportedSchemeMsg parent.to_string), [])
  match driver with
  | (.ok, paths) => (.ok, List.insertionSort (fun a b => a ≤ b) paths)
  | (e, _) => (e, [])

/-- `VFS::filelock_lock` (vfs.cc lines 312-341): a real advisory lock for
local URIs; for HDFS and S3 with the backend compiled in, return `Ok`
without touching any state. -/
def VFS.filelock_lock (bu : Build) (st : FSState) (u : URI) :
    Status × FSState :=
  match u.scheme with
  | .localFs => (.ok, driverLock st u)
  | .hdfs =>
      if bu.haveHdfs then (.ok, st)
      else (.vfsError .builtWithoutHdfs, st)
  | .s3 =>
      if bu.haveS3 then (.ok, st)
      else (.vfsError .builtWithoutS3, st)
  | .other => (.vfsError (.unsupportedSchemeMsg u.to_string), st)

/-- `VFS::filelock_unlock` (vfs.cc lines 343-372), same dispatch shape. -/
def VFS.filelock_unlock (bu : Build) (st : FSState) (u : URI) :
    Status × FSState :=
  match u.scheme with
  | .localFs => (.ok, driverUnlock st u)
  | .hdfs =>
      if bu.haveHdfs then (.ok, st)
      else (.vfsError .builtWithoutHdfs, st)
  | .s3 =>
      if bu.haveS3 then (.ok, st)
      else (.vfsError .builtWithoutS3, st)
  | .other => (.vfsError (.unsupportedSchemeMsg u.to_string), st)

/-- `VFS::read_impl` (vfs.cc lines 710-736): one driver read; the driver
call itself is abstracted as succeeding, since only the dispatch errors
matter here.  Note the fall-through message is the plural
"Unsupported URI schemes". -/
def VFS.read_impl (bu : Build) (u : URI) : Status :=
  match u.scheme with
  | .localFs => .ok
  | .hdfs => if bu.haveHdfs then .ok else .vfsError .builtWithoutHdfs
  | .s3 => if bu.haveS3 then .ok else .vfsError .builtWithoutS3
  | .other => .vfsError (.unsupportedSchemesMsg u.to_string u.to_string)

/-- `VFSMode` (read / write / append) of `VFS::open_file`. -/
inductive VFSMode where
  | read
  | write
  | append
  deriving DecidableEq

/-- `VFS::open_file` (vfs.cc lines 777-811): first `is_file` (propagating
its failure), then the mode switch: Read requires existence, Write removes
an existing file, Append is rejected on S3 (with the "does not support
append mode" error when S3 is compiled in, the "built without S3" error
otherwise) and accepted elsewhere. -/
def VFS.open_file (bu : Build) (st : FSState) (u : URI) (mode : VFSMode) :
    Status × FSState :=
  match VFS.is_file bu st u with
  | (.ok, isFile) =>
      match mode with
      | .read =>
          if !isFile then
            (.vfsError (.cannotOpenNoFile u.to_string), st)
          else (.ok, st)
      | .write =>
          if isFile then
            match VFS.remove_file bu st u with
            | (.ok, st1) => (.ok, st1)
            | (e, st1) => (e, st1)
          else (.ok, st)
      | .append =>
          if u.is_s3 then
            if bu.haveS3 then
              (.vfsError (.cannotOpenS3Append u.to_string), st)
            else (.vfsError .cannotOpenBuiltWithoutS3, st)
          else (.ok, st)
  | (e, _) => (e, st)

/-!
The parallel-read chunking arithmetic of `VFS::read`
(vfs.cc lines 672-708).  All quantities in the source are `uint64_t`, so
every operation that can exceed `2^64` is modelled with the reduction
modulo `2^64` written out: the products `i * thread_read_nbytes` and
`(i + 1) * thread_read_nbytes`, the `- 1` after the latter, and the
per-task byte count `end - begin + 1` (`threadNbytes64`).  `num_ops`
(bounded by the pool size and by `nbytes / min_parallel_size`) and
`utils::ceil` itself cannot exceed `2^64 - 1` for `uint64_t` inputs, so
they carry no reduction.
-/

/-- `2^64`, the modulus of `uint64_t` arithmetic. -/
def U64 : Nat := 2 ^ 64

/-- Modelled from the spec: `utils::ceil(x, y)` (outside vfs.cc), the
ceiling division `ceil(length / num_ops)` of §4.4 step 4.  For
`x < 2^64` the result is below `2^64` (the `+ 1` fires only when
`x / y < x`), so no reduction is needed. -/
def ceilU (x y : Nat) : Nat :=
  x / y + (if x % y = 0 then 0 else 1)

/-- `num_ops = min(max(nbytes / min_parallel_size, 1), pool_size)`
(vfs.cc lines 679-681). -/
def VFS.num_ops (nbytes minPsz pool : Nat) : Nat :=
  min (max (nbytes / minPsz) 1) pool

/-- `begin = i * thread_read_nbytes` with
`thread_read_nbytes = utils::ceil(nbytes, num_ops)`, computed in
`uint64_t` (vfs.cc line 691): the product wraps modulo `2^64`. -/
def chunkBegin (nbytes nops i : Nat) : Nat :=
  i * ceilU nbytes nops % U64

/-- `end = min((i + 1) * thread_read_nbytes - 1, nbytes - 1)`, computed
in `uint64_t` (vfs.cc line 692): the product `(i + 1) *
thread_read_nbytes` wraps modulo `2^64`, and the subsequent `- 1` wraps
when that product is a multiple of `2^64`. -/
def chunkEnd (nbytes nops i : Nat) : Nat :=
  min (((i + 1) * ceilU nbytes nops % U64 + (U64 - 1)) % U64) (nbytes - 1)

/-- `thread_nbytes = end - begin + 1` computed in `uint64_t`
(vfs.cc line 693): the subtraction wraps modulo `2^64` when
`begin > end`. -/
def threadNbytes64 (nbytes nops i : Nat) : Nat :=
  (chunkEnd nbytes nops i + 1 + (U64 - chunkBegin nbytes nops i % U64))
    % U64

/-- One task covers byte `k` of the request when `k` lies in the closed
interval `[offset + begin_i, offset + end_i]`. -/
def taskCovers (offset nbytes nops i k : Nat) : Prop :=
  offset + chunkBegin nbytes nops i ≤ k ∧
  k ≤ offset + chunkEnd nbytes nops i

instance taskCoversDec (offset nbytes nops i k : Nat) :
    Decidable (taskCovers offset nbytes nops i k) :=
  inferInstanceAs (Decidable (_ ∧ _))

/-!  Arithmetic helper lemmas for the chunk partition. -/

theorem ceilU_pos {L n : Nat} (hL : 0 < L) (hn : 0 < n) : 0 < ceilU L n := by
  unfold ceilU
  have hd := Nat.div_add_mod L n
  by_cases h : L % n = 0
  · rw [if_pos h, Nat.add_zero]
    rcases Nat.eq_zero_or_pos (L / n) with h0 | h0
    · rw [h0, Nat.mul_zero] at hd
      omega
    · exact h0
  · rw [if_neg h]
    exact Nat.succ_pos _

theorem le_mul_ceilU {L n : Nat} (hn : 0 < n) : L ≤ n * ceilU L n := by
  unfold ceilU
  have hd := Nat.div_add_mod L n
  have hm : L % n < n := Nat.mod_lt _ hn
  by_cases h : L % n = 0
  · rw [if_pos h, Nat.add_zero]
    omega
  · rw [if_neg h]
    have hmul : n * (L / n + 1) = n * (L / n) + n := by ring
    rw [hmul]
    omega

theorem num_ops_pos {L m p : Nat} (hp : 0 < p) : 0 < VFS.num_ops L m p := by
  unfold VFS.num_ops
  have h1 : 0 < max (L / m) 1 := by omega
  exact lt_min h1 hp

theorem U64_pos : 0 < U64 := by decide

theorem wrap_pred {M p : Nat} (hM : 0 < M) (h1 : 1 ≤ p) (h2 : p < M) :
    (p % M + (M - 1)) % M = p - 1 := by
  rw [Nat.mod_eq_of_lt h2]
  have he : p + (M - 1) = (p - 1) + M := by omega
  rw [he, Nat.add_mod_right, Nat.mod_eq_of_lt (by omega)]

theorem lt_succ_mul_ceil {c d : Nat} (hc : 0 < c) : d < (d / c + 1) * c := by
  have hd := Nat.div_add_mod d c
  have hm : d % c < c := Nat.mod_lt _ hc
  have hmul : (d / c + 1) * c = c * (d / c) + c := by ring
  omega

theorem chunk_div_lt {L n d : Nat} (hd : d < L) (hn : 0 < n) :
    d / ceilU L n < n := by
  have hnc : L ≤ n * ceilU L n := le_mul_ceilU hn
  by_contra hcon
  push_neg at hcon
  have h1 : n * ceilU L n ≤ (d / ceilU L n) * ceilU L n :=
    Nat.mul_le_mul_right _ hcon
  have h2 : (d / ceilU L n) * ceilU L n ≤ d := Nat.div_mul_le_self d _
  omega

theorem chunk_disjoint {L n i j d : Nat} (hc : 0 < ceilU L n) (hij : i < j)
    (hi : i * ceilU L n ≤ d ∧ d ≤ min ((i + 1) * ceilU L n - 1) (L - 1))
    (hj : j * ceilU L n ≤ d ∧ d ≤ min ((j + 1) * ceilU L n - 1) (L - 1)) :
    False := by
  have h1 : d ≤ (i + 1) * ceilU L n - 1 :=
    le_trans hi.2 (Nat.min_le_left _ _)
  have h2 : (i + 1) * ceilU L n ≤ j * ceilU L n :=
    Nat.mul_le_mul_right _ hij
  have h3 : 0 < (i + 1) * ceilU L n := Nat.mul_pos (Nat.succ_pos i) hc
  have h4 : j * ceilU L n ≤ d := hj.1
  omega

/-- Counterexample to claim C1 as stated: at `length = 2^64 - 1`,
`min_parallel_size = 1`, pool size `7` — inputs satisfying all the
claim's preconditions — the code computes `num_ops = 7` and
`thread_read_nbytes = 2635249153387078803`; for `i = 6` the `uint64_t`
product `7 * thread_read_nbytes = 2^64 + 5` wraps, giving
`end = min(5 - 1, length - 1) = 4` while `begin = 6 * thread_read_nbytes`
is huge, so the byte `6 * thread_read_nbytes` of `[0, length)` lies in no
task's range: a gap, falsifying the universal partition. -/
theorem vfs_read_chunks_gap_counterexample :
    0 < 2 ^ 64 - 1 ∧ 0 < 1 ∧ 0 < 7 ∧
    VFS.num_ops (2 ^ 64 - 1) 1 7 = 7 ∧
    ceilU (2 ^ 64 - 1) 7 = 2635249153387078803 ∧
    6 * ceilU (2 ^ 64 - 1) 7 < 2 ^ 64 - 1 ∧
    (∀ i, i < 7 →
      ¬ taskCovers 0 (2 ^ 64 - 1) 7 i (6 * ceilU (2 ^ 64 - 1) 7)) := by
  decide

/-- Claim C1 (amended): for every `offset ≥ 0`, `length > 0`,
`min_parallel_size > 0` and pool size `≥ 1` whose chunk arithmetic stays
below `2^64` — `num_ops * ceil(length / num_ops) < 2^64`, which holds
whenever `length + pool_size < 2^64`, i.e. for every realistic request —
the chunk ranges computed by `VFS::read` — `[offset + begin_i, offset +
end_i]` with `begin_i = i * ceil(length / num_ops)` and
`end_i = min((i + 1) * ceil(length / num_ops) - 1, length - 1)` in
`uint64_t` for `i < num_ops` — exactly partition `[offset, offset +
length)`: each byte of the range is covered by exactly one task's range,
and each task's range lies inside `[offset, offset + length)`.  Without
the bound the `uint64_t` products wrap and the partition fails
(`vfs_read_chunks_gap_counterexample`). -/
theorem vfs_read_chunks_partition (offset L m p k : Nat)
    (hL : 0 < L) (hm : 0 < m) (hp : 0 < p)
    (hbound : VFS.num_ops L m p * ceilU L (VFS.num_ops L m p) < U64)
    (hk1 : offset ≤ k) (hk2 : k < offset + L) :
    (∃! i, i < VFS.num_ops L m p ∧
        taskCovers offset L (VFS.num_ops L m p) i k) ∧
    (∀ i b, i < VFS.num_ops L m p →
        taskCovers offset L (VFS.num_ops L m p) i b →
        offset ≤ b ∧ b < offset + L) := by
  have hn : 0 < VFS.num_ops L m p := num_ops_pos hp
  set n := VFS.num_ops L m p with hndef
  have hc : 0 < ceilU L n := ceilU_pos hL hn
  have hB : ∀ i, i < n → chunkBegin L n i = i * ceilU L n := by
    intro i hi
    unfold chunkBegin
    have hlt : i * ceilU L n < n * ceilU L n :=
      mul_lt_mul_of_pos_right hi hc
    exact Nat.mod_eq_of_lt (lt_trans hlt hbound)
  have hE : ∀ i, i < n →
      chunkEnd L n i = min ((i + 1) * ceilU L n - 1) (L - 1) := by
    intro i hi
    unfold chunkEnd
    have h1 : 1 ≤ (i + 1) * ceilU L n := Nat.mul_pos (Nat.succ_pos i) hc
    have h2 : (i + 1) * ceilU L n < U64 :=
      lt_of_le_of_lt (Nat.mul_le_mul_right _ hi) hbound
    rw [wrap_pred U64_pos h1 h2]
  have hcontain : ∀ i b, i < n → taskCovers offset L n i b →
      offset ≤ b ∧ b < offset + L := by
    intro i b hi hcov
    obtain ⟨hb1, hb2⟩ := hcov
    rw [hE i hi] at hb2
    have hend : min ((i + 1) * ceilU L n - 1) (L - 1) ≤ L - 1 :=
      Nat.min_le_right _ _
    omega
  refine ⟨?_, hcontain⟩
  set d := k - offset with hddef
  have hdL : d < L := by omega
  set i0 := d / ceilU L n with hi0def
  have hi0n : i0 < n := chunk_div_lt hdL hn
  have hbeg : i0 * ceilU L n ≤ d := Nat.div_mul_le_self d _
  have hendA : d < (i0 + 1) * ceilU L n := lt_succ_mul_ceil hc
  have hend : d ≤ min ((i0 + 1) * ceilU L n - 1) (L - 1) :=
    le_min (by omega) (by omega)
  have hcov0 : taskCovers offset L n i0 k := by
    unfold taskCovers
    rw [hB i0 hi0n, hE i0 hi0n]
    omega
  refine ⟨i0, ⟨hi0n, hcov0⟩, ?_⟩
  rintro y ⟨hy, hcy⟩
  unfold taskCovers at hcy
  rw [hB y hy, hE y hy] at hcy
  obtain ⟨hcy1, hcy2⟩ := hcy
  by_contra hne
  rcases Nat.lt_or_ge y i0 with hlt | hge
  · exact chunk_disjoint hc hlt ⟨by omega, by omega⟩ ⟨hbeg, hend⟩
  · have hlt2 : i0 < y := by omega
    exact chunk_disjoint hc hlt2 ⟨hbeg, hend⟩ ⟨by omega, by omega⟩

/-- Witness for the amended C1 at `offset = 7`, `length = 5`,
`min_parallel_size = 1`, pool size `4`, byte `k = 9` (the bound
`4 * ceil(5/4) = 8 < 2^64` holds). -/
theorem vfs_read_chunks_partition_witness :
    (∃! i, i < VFS.num_ops 5 1 4 ∧ taskCovers 7 5 (VFS.num_ops 5 1 4) i 9) ∧
    (∀ i b, i < VFS.num_ops 5 1 4 → taskCovers 7 5 (VFS.num_ops 5 1 4) i b →
        7 ≤ b ∧ b < 7 + 5) :=
  vfs_read_chunks_partition 7 5 1 4 9 (by decide) (by decide) (by decide)
    (by decide) (by decide) (by decide)

/-- Claim C2: the scenario `read(loc, offset = 0, length = 1000000)` with
`min_parallel_size = 100000` and pool size `4` gives `num_ops = 4`, chunk
size `250000`, and task ranges `[0, 249999]`, `[250000, 499999]`,
`[500000, 749999]`, `[750000, 999999]`. -/
theorem vfs_read_scenario :
    VFS.num_ops 1000000 100000 4 = 4 ∧
    ceilU 1000000 4 = 250000 ∧
    chunkBegin 1000000 4 0 = 0 ∧ chunkEnd 1000000 4 0 = 249999 ∧
    chunkBegin 1000000 4 1 = 250000 ∧ chunkEnd 1000000 4 1 = 499999 ∧
    chunkBegin 1000000 4 2 = 500000 ∧ chunkEnd 1000000 4 2 = 749999 ∧
    chunkBegin 1000000 4 3 = 750000 ∧ chunkEnd 1000000 4 3 = 999999 :=
  ⟨rfl, rfl, rfl, rfl, rfl, rfl, rfl, rfl, rfl, rfl⟩

/-- Claim C3: at `nbytes = 5`, `min_parallel_size = 1`, pool size `4`
(so `num_ops = 4`, chunk `= 2`), the last chunk's `begin = 6` exceeds
`nbytes - 1 = 4`, the `uint64_t` per-task byte count `end - begin + 1`
wraps to `2^64 - 1`, and the submitted task range escapes
`[offset, offset + nbytes)` (shown at `offset = 0`). -/
theorem vfs_read_chunk_underflow :
    VFS.num_ops 5 1 4 = 4 ∧
    ceilU 5 4 = 2 ∧
    chunkBegin 5 4 3 = 6 ∧
    5 - 1 < chunkBegin 5 4 3 ∧
    threadNbytes64 5 4 3 = 2 ^ 64 - 1 ∧
    0 + 5 < 0 + chunkBegin 5 4 3 + threadNbytes64 5 4 3 :=
  ⟨rfl, rfl, rfl, by decide, rfl, by decide⟩

/-!  Concrete fixtures used by witnesses and counterexamples. -/

/-- A build with both optional backends compiled in. -/
def buildFull : Build := ⟨true, true⟩

/-- A build without the S3 backend. -/
def buildNoS3 : Build := ⟨true, false⟩

/-- A build without the HDFS backend. -/
def buildNoHdfs : Build := ⟨false, true⟩

/-- The empty storage state. -/
def emptyFS : FSState :=
  ⟨fun _ => false, fun _ => false, fun _ => false, fun _ => []⟩

def uriOther : URI := ⟨.other, "weird://x"⟩

def uriLocalA : URI := ⟨.localFs, "file:///tmp/a"⟩

def uriS3A : URI := ⟨.s3, "s3://bucket/a"⟩

def uriHdfsA : URI := ⟨.hdfs, "hdfs://nn/a"⟩

/-- A state in which exactly the S3 object `uriS3A` exists. -/
def stWithS3File : FSState :=
  ⟨fun v => decide (v = uriS3A), fun _ => false, fun _ => false,
   fun _ => []⟩

/-- A state whose backend listing is unsorted. -/
def stWithListing : FSState :=
  ⟨fun _ => false, fun _ => false, fun _ => false,
   fun _ => ["b", "a", "c"]⟩

/-!  Cross-scheme moves (C4, C5). -/

theorem moveDispatch_cross {bu : Build} {st : FSState} {a b : URI}
    (hs : a.scheme ≠ b.scheme) :
    (moveDispatch bu st a b).1 ≠ .ok ∧
    (moveDispatch bu st a b).2 = st ∧
    (a.scheme ≠ .other →
      (moveDispatch bu st a b).1 = .vfsError .movingAcrossFs) ∧
    (a.scheme = .other →
      (moveDispatch bu st a b).1 =
        .vfsError (.unsupportedSchemesMsg a.to_string b.to_string)) := by
  rcases a with ⟨sa, ia⟩
  rcases b with ⟨sb, ib⟩
  cases sa <;> cases sb <;>
    simp_all [moveDispatch, URI.is_file, URI.is_hdfs, URI.is_s3]

theorem move_file_cross_aux (bu : Build) (st : FSState) (a b : URI)
    (hs : a.scheme ≠ b.scheme) :
    (VFS.move_file bu st a b).1 ≠ .ok ∧
    ((VFS.move_file bu st a b).2 = st ∨
      (VFS.move_file bu st a b).2 = (VFS.remove_file bu st b).2) ∧
    ((VFS.is_file bu st b).1 = .ok →
      ((VFS.is_file bu st b).2 = true → (VFS.remove_file bu st b).1 = .ok) →
      (a.scheme ≠ .other →
        (VFS.move_file bu st a b).1 = .vfsError .movingAcrossFs) ∧
      (a.scheme = .other →
        (VFS.move_file bu st a b).1 =
          .vfsError (.unsupportedSchemesMsg a.to_string b.to_string))) := by
  rcases h1 : VFS.is_file bu st b with ⟨s1, isf⟩
  cases s1 with
  | vfsError m =>
      have he : VFS.move_file bu st a b = (.vfsError m, st) := by
        unfold VFS.move_file
        rw [h1]
      refine ⟨by rw [he]; simp, Or.inl (by rw [he]), ?_⟩
      intro hok
      simp at hok
  | error m =>
      have he : VFS.move_file bu st a b = (.error m, st) := by
        unfold VFS.move_file
        rw [h1]
      refine ⟨by rw [he]; simp, Or.inl (by rw [he]), ?_⟩
      intro hok
      simp at hok
  | ok =>
      by_cases hf : isf = true
      · rcases h2 : VFS.remove_file bu st b with ⟨s2, st2⟩
        cases s2 with
        | ok =>
            have he : VFS.move_file bu st a b = moveDispatch bu st2 a b := by
              unfold VFS.move_file
              rw [h1]
              simp [hf, h2]
            obtain ⟨g1, g2, g3, g4⟩ :=
              @moveDispatch_cross bu st2 a b hs
            refine ⟨by rw [he]; exact g1,
                    Or.inr (by rw [he, g2]),
                    fun _ _ => ⟨fun h => by rw [he]; exact g3 h,
                                fun h => by rw [he]; exact g4 h⟩⟩
        | vfsError m =>
            have he : VFS.move_file bu st a b = (.vfsError m, st2) := by
              unfold VFS.move_file
              rw [h1]
              simp [hf, h2]
            refine ⟨by rw [he]; simp, Or.inr (by rw [he]), ?_⟩
            intro _ hrem
            have hr := hrem hf
            simp at hr
        | error m =>
            have he : VFS.move_file bu st a b = (.error m, st2) := by
              unfold VFS.move_file
              rw [h1]
              simp [hf, h2]
            refine ⟨by rw [he]; simp, Or.inr (by rw [he]), ?_⟩
            intro _ hrem
            have hr := hrem hf
            simp at hr
      · have he : VFS.move_file bu st a b = moveDispatch bu st a b := by
          unfold VFS.move_file
          rw [h1]
          simp [hf]
        obtain ⟨g1, g2, g3, g4⟩ :=
          @moveDispatch_cross bu st a b hs
        refine ⟨by rw [he]; exact g1,
                Or.inl (by rw [he, g2]),
                fun _ _ => ⟨fun h => by rw [he]; exact g3 h,
                            fun h => by rw [he]; exact g4 h⟩⟩

/-- Counterexample to claim C4 as stated: for a source URI of
unrecognized (`Other`) scheme and a Local destination — two different
schemes — `move_file` and `move_dir` fail with the `UnsupportedScheme`
error ("Unsupported URI schemes: ..."), not with the cross-filesystem
`UnsupportedOperation` error. -/
theorem move_cross_scheme_counterexample :
    uriOther.scheme ≠ uriLocalA.scheme ∧
    classifyStatus (VFS.move_file buildFull emptyFS uriOther uriLocalA).1 =
      some .unsupportedScheme ∧
    classifyStatus (VFS.move_file buildFull emptyFS uriOther uriLocalA).1 ≠
      some .unsupportedOperation ∧
    classifyStatus (VFS.move_dir buildFull emptyFS uriOther uriLocalA).1 =
      some .unsupportedScheme ∧
    classifyStatus (VFS.move_dir buildFull emptyFS uriOther uriLocalA).1 ≠
      some .unsupportedOperation := by
  decide

/-- Claim C4 (amended): cross-scheme `move_file` and `move_dir` always
fail and never perform the move (the only possible state change is
`move_file`'s removal of an existing destination).  The error is the
cross-filesystem `UnsupportedOperation` error when the source scheme is
recognized (for `move_file`: provided the destination existence check and
removal succeed); for an unrecognized source scheme it is the
`UnsupportedScheme` error. -/
theorem move_cross_scheme_always_fails (bu : Build) (st : FSState)
    (a b : URI) (hs : a.scheme ≠ b.scheme) :
    (VFS.move_file bu st a b).1 ≠ .ok ∧
    ((VFS.move_file bu st a b).2 = st ∨
      (VFS.move_file bu st a b).2 = (VFS.remove_file bu st b).2) ∧
    (VFS.move_dir bu st a b).1 ≠ .ok ∧
    (VFS.move_dir bu st a b).2 = st ∧
    (a.scheme ≠ .other →
      classifyStatus (VFS.move_dir bu st a b).1 =
        some .unsupportedOperation) ∧
    (a.scheme = .other →
      classifyStatus (VFS.move_dir bu st a b).1 =
        some .unsupportedScheme) ∧
    ((VFS.is_file bu st b).1 = .ok →
      ((VFS.is_file bu st b).2 = true → (VFS.remove_file bu st b).1 = .ok) →
      a.scheme ≠ .other →
      classifyStatus (VFS.move_file bu st a b).1 =
        some .unsupportedOperation) := by
  obtain ⟨f1, f2, f3⟩ := move_file_cross_aux bu st a b hs
  obtain ⟨d1, d2, d3, d4⟩ := @moveDispatch_cross bu st a b hs
  refine ⟨f1, f2, d1, d2, ?_, ?_, ?_⟩
  · intro h
    show classifyStatus (moveDispatch bu st a b).1 = _
    rw [d3 h]
    rfl
  · intro h
    show classifyStatus (moveDispatch bu st a b).1 = _
    rw [d4 h]
    rfl
  · intro hok hrem hns
    rw [(f3 hok hrem).1 hns]
    rfl

/-- Witness for the amended C4 at a Local source and an S3 destination
in a full build over the empty state. -/
theorem move_cross_scheme_always_fails_witness :
    (VFS.move_file buildFull emptyFS uriLocalA uriS3A).1 ≠ .ok ∧
    ((VFS.move_file buildFull emptyFS uriLocalA uriS3A).2 = emptyFS ∨
      (VFS.move_file buildFull emptyFS uriLocalA uriS3A).2 =
        (VFS.remove_file buildFull emptyFS uriS3A).2) ∧
    (VFS.move_dir buildFull emptyFS uriLocalA uriS3A).1 ≠ .ok ∧
    (VFS.move_dir buildFull emptyFS uriLocalA uriS3A).2 = emptyFS ∧
    (uriLocalA.scheme ≠ .other →
      classifyStatus (VFS.move_dir buildFull emptyFS uriLocalA uriS3A).1 =
        some .unsupportedOperation) ∧
    (uriLocalA.scheme = .other →
      classifyStatus (VFS.move_dir buildFull emptyFS uriLocalA uriS3A).1 =
        some .unsupportedScheme) ∧
    ((VFS.is_file buildFull emptyFS uriS3A).1 = .ok →
      ((VFS.is_file buildFull emptyFS uriS3A).2 = true →
        (VFS.remove_file buildFull emptyFS uriS3A).1 = .ok) →
      uriLocalA.scheme ≠ .other →
      classifyStatus (VFS.move_file buildFull emptyFS uriLocalA uriS3A).1 =
        some .unsupportedOperation) :=
  move_cross_scheme_always_fails buildFull emptyFS uriLocalA uriS3A
    (by decide)

/-- Which schemes have a live backend in a given build (Local is always
built in; `Other` never has one). -/
def backendCompiled (bu : Build) : Scheme → Bool
  | .localFs => true
  | .hdfs => bu.haveHdfs
  | .s3 => bu.haveS3
  | .other => false

/-- Claim C5: a cross-scheme `move_file` whose destination denotes an
existing file on a compiled-in backend removes that destination before
any scheme-compatibility check: the call fails, yet the destination file
is gone (and nothing else changed); `move_dir`, by contrast, leaves the
state entirely unchanged on a cross-scheme failure. -/
theorem move_file_removes_dest_first (bu : Build) (st : FSState)
    (a b : URI) (hs : a.scheme ≠ b.scheme)
    (hcomp : backendCompiled bu b.scheme = true)
    (hex : st.files b = true) :
    (VFS.move_file bu st a b).1 ≠ .ok ∧
    ((VFS.move_file bu st a b).2).files b = false ∧
    (∀ x, x ≠ b → ((VFS.move_file bu st a b).2).files x = st.files x) ∧
    (VFS.move_dir bu st a b).1 ≠ .ok ∧
    (VFS.move_dir bu st a b).2 = st := by
  have hisf : VFS.is_file bu st b = (.ok, true) := by
    rcases b with ⟨sb, ib⟩
    cases sb <;> simp_all [VFS.is_file, backendCompiled]
  have hrem : VFS.remove_file bu st b = (.ok, driverRemoveFile st b) := by
    rcases b with ⟨sb, ib⟩
    cases sb <;> simp_all [VFS.remove_file, backendCompiled]
  have he : VFS.move_file bu st a b =
      moveDispatch bu (driverRemoveFile st b) a b := by
    unfold VFS.move_file
    rw [hisf]
    simp [hrem]
  obtain ⟨d1, d2, _, _⟩ :=
    @moveDispatch_cross bu (driverRemoveFile st b) a b hs
  obtain ⟨m1, m2, _, _⟩ := @moveDispatch_cross bu st a b hs
  refine ⟨by rw [he]; exact d1, ?_, ?_, m1, m2⟩
  · rw [he, d2]
    simp [driverRemoveFile]
  · intro x hx
    rw [he, d2]
    simp [driverRemoveFile, hx]

/-- Witness for C5: Local source, existing S3 destination, full build. -/
theorem move_file_removes_dest_first_witness :
    (VFS.move_file buildFull stWithS3File uriLocalA uriS3A).1 ≠ .ok ∧
    ((VFS.move_file buildFull stWithS3File uriLocalA uriS3A).2).files
      uriS3A = false ∧
    (∀ x, x ≠ uriS3A →
      ((VFS.move_file buildFull stWithS3File uriLocalA uriS3A).2).files x =
        stWithS3File.files x) ∧
    (VFS.move_dir buildFull stWithS3File uriLocalA uriS3A).1 ≠ .ok ∧
    (VFS.move_dir buildFull stWithS3File uriLocalA uriS3A).2 =
      stWithS3File :=
  move_file_removes_dest_first buildFull stWithS3File uriLocalA uriS3A
    (by decide) (by decide) (by decide)

/-!  Backend availability errors (C6). -/

/-- Claim C6: on a URI of a recognized scheme whose backend is not
compiled in (here HDFS), the dispatch-bearing operations `read_impl` and
`create_dir` return the `BackendNotCompiled` error, which is distinct
both from the `UnsupportedScheme` error those operations return for an
unrecognized scheme and from a driver `BackendError` passthrough. -/
theorem backend_not_compiled_distinct (bu : Build) (st : FSState)
    (u v : URI) (hu : u.scheme = .hdfs) (hb : bu.haveHdfs = false)
    (hv : v.scheme = .other) :
    classifyStatus (VFS.read_impl bu u) = some .backendNotCompiled ∧
    classifyStatus (VFS.create_dir bu st u).1 = some .backendNotCompiled ∧
    classifyStatus (VFS.read_impl bu v) = some .unsupportedScheme ∧
    classifyStatus (VFS.create_dir bu st v).1 = some .unsupportedScheme ∧
    classifyStatus (VFS.read_impl bu u) ≠ some .unsupportedScheme ∧
    classifyStatus (VFS.read_impl bu u) ≠ some .backendError := by
  rcases u with ⟨su, iu⟩
  rcases v with ⟨sv, iv⟩
  cases su <;> cases sv <;>
    simp_all [VFS.read_impl, VFS.create_dir, VFS.is_dir, URI.is_s3,
      classifyStatus, Msg.kind]

/-- Witness for C6 in a build without HDFS. -/
theorem backend_not_compiled_distinct_witness :
    classifyStatus (VFS.read_impl buildNoHdfs uriHdfsA) =
      some .backendNotCompiled ∧
    classifyStatus (VFS.create_dir buildNoHdfs emptyFS uriHdfsA).1 =
      some .backendNotCompiled ∧
    classifyStatus (VFS.read_impl buildNoHdfs uriOther) =
      some .unsupportedScheme ∧
    classifyStatus (VFS.create_dir buildNoHdfs emptyFS uriOther).1 =
      some .unsupportedScheme ∧
    classifyStatus (VFS.read_impl buildNoHdfs uriHdfsA) ≠
      some .unsupportedScheme ∧
    classifyStatus (VFS.read_impl buildNoHdfs uriHdfsA) ≠
      some .backendError :=
  backend_not_compiled_distinct buildNoHdfs emptyFS uriHdfsA uriOther
    (by decide) (by decide) (by decide)

/-!  Append-mode opens (C7). -/

/-- Counterexample to claim C7 as stated: in a build without the S3
backend, `open_file` in Append mode on an S3 URI fails with the
`BackendNotCompiled` error coming from the preliminary `is_file` check,
not with an `UnsupportedOperation` error. -/
theorem open_append_counterexample :
    (VFS.open_file buildNoS3 emptyFS uriS3A .append).1 =
      .vfsError .builtWithoutS3 ∧
    classifyStatus (VFS.open_file buildNoS3 emptyFS uriS3A .append).1 ≠
      some .unsupportedOperation := by
  decide

/-- Claim C7 (amended): `open_file` in Append mode on an S3 location
always fails: with the `UnsupportedOperation` error
("S3 does not support append mode") when the S3 backend is compiled in,
and with the `BackendNotCompiled` error from the preliminary existence
check when it is not; the same call on a Local location succeeds. -/
theorem open_append_semantics (bu : Build) (st : FSState) (u v : URI)
    (hu : u.scheme = .s3) (hv : v.scheme = .localFs) :
    (VFS.open_file bu st u .append).1 ≠ .ok ∧
    (bu.haveS3 = true →
      (VFS.open_file bu st u .append).1 =
        .vfsError (.cannotOpenS3Append u.to_string) ∧
      classifyStatus (VFS.open_file bu st u .append).1 =
        some .unsupportedOperation) ∧
    (bu.haveS3 = false →
      classifyStatus (VFS.open_file bu st u .append).1 =
        some .backendNotCompiled) ∧
    (VFS.open_file bu st v .append).1 = .ok := by
  rcases u with ⟨su, iu⟩
  rcases v with ⟨sv, iv⟩
  cases su <;> cases sv <;> cases hs3 : bu.haveS3 <;>
    simp_all [VFS.open_file, VFS.is_file, URI.is_s3, URI.to_string,
      classifyStatus, Msg.kind]

/-- Witness for the amended C7 in a full build over the empty state. -/
theorem open_append_semantics_witness :
    (VFS.open_file buildFull emptyFS uriS3A .append).1 ≠ .ok ∧
    (buildFull.haveS3 = true →
      (VFS.open_file buildFull emptyFS uriS3A .append).1 =
        .vfsError (.cannotOpenS3Append uriS3A.to_string) ∧
      classifyStatus (VFS.open_file buildFull emptyFS uriS3A .append).1 =
        some .unsupportedOperation) ∧
    (buildFull.haveS3 = false →
      classifyStatus (VFS.open_file buildFull emptyFS uriS3A .append).1 =
        some .backendNotCompiled) ∧
    (VFS.open_file buildFull emptyFS uriLocalA .append).1 = .ok :=
  open_append_semantics buildFull emptyFS uriS3A uriLocalA
    (by decide) (by decide)

/-!  Idempotent directory creation (C8). -/

/-- Claim C8: `create_dir` is idempotent: whenever a `create_dir` call
succeeds, invoking it again on the resulting state (where the directory
already exists) again returns success and leaves the state unchanged. -/
theorem create_dir_idempotent (bu : Build) (st : FSState) (u : URI)
    (h : (VFS.create_dir bu st u).1 = .ok) :
    (VFS.create_dir bu (VFS.create_dir bu st u).2 u).1 = .ok ∧
    (VFS.create_dir bu (VFS.create_dir bu st u).2 u).2 =
      (VFS.create_dir bu st u).2 := by
  rcases u with ⟨su, iu⟩
  cases su
  case localFs =>
    by_cases hd : st.dirs ⟨.localFs, iu⟩ = true
    · simp_all [VFS.create_dir, VFS.is_dir, URI.is_s3]
    · simp_all [VFS.create_dir, VFS.is_dir, URI.is_s3, driverCreateDir]
  case hdfs =>
    cases hh : bu.haveHdfs
    · simp_all [VFS.create_dir, VFS.is_dir, URI.is_s3]
    · by_cases hd : st.dirs ⟨.hdfs, iu⟩ = true
      · simp_all [VFS.create_dir, VFS.is_dir, URI.is_s3]
      · simp_all [VFS.create_dir, VFS.is_dir, URI.is_s3, driverCreateDir]
  case s3 =>
    cases hh : bu.haveS3
    · simp_all [VFS.create_dir, VFS.is_dir, URI.is_s3]
    · simp_all [VFS.create_dir, VFS.is_dir, URI.is_s3]
  case other =>
    simp_all [VFS.create_dir, VFS.is_dir, URI.is_s3]

/-- Witness for C8: creating a fresh local directory, then again. -/
theorem create_dir_idempotent_witness :
    (VFS.create_dir buildFull
      (VFS.create_dir buildFull emptyFS uriLocalA).2 uriLocalA).1 = .ok ∧
    (VFS.create_dir buildFull
      (VFS.create_dir buildFull emptyFS uriLocalA).2 uriLocalA).2 =
      (VFS.create_dir buildFull emptyFS uriLocalA).2 :=
  create_dir_idempotent buildFull emptyFS uriLocalA (by decide)

/-!  Sorted listings (C9). -/

/-- Claim C9: whenever `ls` succeeds, the entries it returns are sorted
lexicographically on the backend-native path string and are exactly the
entries the backend driver produced (a permutation of them), no matter in
which order the driver produced them. -/
theorem ls_sorted (bu : Build) (st : FSState) (parent : URI)
    (h : (VFS.ls bu st parent).1 = .ok) :
    List.Sorted (fun a b : String => a ≤ b) (VFS.ls bu st parent).2 ∧
    List.Perm (VFS.ls bu st parent).2 (st.listing parent) := by
  rcases parent with ⟨sp, ip⟩
  cases sp
  case localFs =>
    exact ⟨List.sorted_insertionSort _ _, List.perm_insertionSort _ _⟩
  case hdfs =>
    cases hh : bu.haveHdfs
    · simp_all [VFS.ls]
    · have he : VFS.ls bu st ⟨.hdfs, ip⟩ =
          (.ok, List.insertionSort (fun a b : String => a ≤ b)
            (st.listing ⟨.hdfs, ip⟩)) := by
        simp [VFS.ls, hh]
      rw [he]
      exact ⟨List.sorted_insertionSort _ _, List.perm_insertionSort _ _⟩
  case s3 =>
    cases hh : bu.haveS3
    · simp_all [VFS.ls]
    · have he : VFS.ls bu st ⟨.s3, ip⟩ =
          (.ok, List.insertionSort (fun a b : String => a ≤ b)
            (st.listing ⟨.s3, ip⟩)) := by
        simp [VFS.ls, hh]
      rw [he]
      exact ⟨List.sorted_insertionSort _ _, List.perm_insertionSort _ _⟩
  case other =>
    simp_all [VFS.ls]

/-- Witness for C9 on a local parent whose driver listing is unsorted. -/
theorem ls_sorted_witness :
    List.Sorted (fun a b : String => a ≤ b)
      (VFS.ls buildFull stWithListing uriLocalA).2 ∧
    List.Perm (VFS.ls buildFull stWithListing uriLocalA).2
      (stWithListing.listing uriLocalA) :=
  ls_sorted buildFull stWithListing uriLocalA rfl

/-!  Advisory locks (C10). -/

/-- Claim C10: `filelock_lock` and `filelock_unlock` perform a real
advisory-lock operation only for Local URIs; on an HDFS or S3 URI with
the backend compiled in, both calls return success with the state — in
particular the set of held locks — completely unchanged, while on a Local
URI the lock is actually taken and released. -/
theorem filelock_noop_nonlocal (bu : Build) (st : FSState) (u v : URI)
    (h : (u.scheme = .hdfs ∧ bu.haveHdfs = true) ∨
         (u.scheme = .s3 ∧ bu.haveS3 = true))
    (hv : v.scheme = .localFs) :
    VFS.filelock_lock bu st u = (.ok, st) ∧
    VFS.filelock_unlock bu st u = (.ok, st) ∧
    (VFS.filelock_lock bu st v).1 = .ok ∧
    ((VFS.filelock_lock bu st v).2).locks v = true ∧
    ((VFS.filelock_unlock bu st v).2).locks v = false := by
  rcases u with ⟨su, iu⟩
  rcases v with ⟨sv, iv⟩
  cases su <;> cases sv <;>
    simp_all [VFS.filelock_lock, VFS.filelock_unlock, driverLock,
      driverUnlock]

/-- Witness for C10 on an HDFS URI in a full build. -/
theorem filelock_noop_nonlocal_witness :
    VFS.filelock_lock buildFull emptyFS uriHdfsA = (.ok, emptyFS) ∧
    VFS.filelock_unlock buildFull emptyFS uriHdfsA = (.ok, emptyFS) ∧
    (VFS.filelock_lock buildFull emptyFS uriLocalA).1 = .ok ∧
    ((VFS.filelock_lock buildFull emptyFS uriLocalA).2).locks
      uriLocalA = true ∧
    ((VFS.filelock_unlock buildFull emptyFS uriLocalA).2).locks
      uriLocalA = false :=
  filelock_noop_nonlocal buildFull emptyFS uriHdfsA uriLocalA
    (by decide) (by decide)
